import Mathlib

/-!
# PortHub username-reservation and profile-initialization workflow

A shallow embedding of the registration/completion core of the PortHub
(PortfolioHub) application, together with proofs about it.

The embedded code:
* `src/components/auth-form.tsx` — `checkUsernameUnique`, the register branch of
  `onSubmit` (direct registration), the zod `registerSchema`;
* `src/app/finish-profile/page.tsx` — `checkUsernameUnique`, `onSubmit`
  (federated completion), the zod `profileSchema`, the `searchParams` handling;
* the `AuthProvider` session-restore logic and the dashboard routing in
  `src/app/dashboard/page.tsx`.

The Firestore document store is modelled as three collections of optional
records addressed by string keys (`users`, `usernames`, `portfolios`);
`setDoc` is an unconditional pointwise overwrite and `getDoc` a pointwise
read, which is the observable contract used by the code.  Portfolio documents
are schemaless in Firestore, so they are embedded as ordered field lists over
a small JSON-like value type, letting the two seeding paths (which write
documents of different shapes) be compared faithfully.  `serverTimestamp()`
is modelled as an explicit `now : Nat` supplied by the environment, and the
external identity provider as an `Except`-valued oracle supplied by the
environment.  Each workflow run also returns the trace of store reads, store
writes and identity-provider calls it performed, in program order.
-/

namespace PortHub

/-- A JSON-like value as stored in a Firestore document field. -/
inductive Val where
  | str (s : String)
  | arr (xs : List Val)
  | obj (fields : List (String × Val))
  | tstamp (t : Nat)

/-- A schemaless document: an ordered list of named fields, as written by
`setDoc` object literals in the source. -/
abbrev Doc := List (String × Val)

/-- Field lookup in a document. -/
def docField (d : Doc) (k : String) : Option Val :=
  (d.find? (fun p => p.1 = k)).map (fun p => p.2)

/-- A `users/{uid}` record, as written by both registration paths:
`{ username: <normalized>, email: <email>, createdAt: serverTimestamp() }`. -/
structure UserRecord where
  username : String
  email : String
  createdAt : Nat
deriving DecidableEq, Repr

/-- A `usernames/{normalized}` registry record: `{ uid: <accountId> }`. -/
structure UsernameEntry where
  uid : String
deriving DecidableEq, Repr

/-- The Firestore state restricted to the three collections the workflow
touches.  Every collection is a total map from document key to an optional
record; `none` means the document does not exist. -/
structure Store where
  users : String → Option UserRecord
  usernames : String → Option UsernameEntry
  portfolios : String → Option Doc

/-- The store with no documents. -/
def emptyStore : Store := ⟨fun _ => none, fun _ => none, fun _ => none⟩

/-- Embeds `setDoc(doc(db, "users", k), v)`: unconditional overwrite. -/
def Store.setUser (s : Store) (k : String) (v : UserRecord) : Store :=
  { s with users := fun k2 => if k2 = k then some v else s.users k2 }

/-- Embeds `setDoc(doc(db, "usernames", k), v)`: unconditional overwrite. -/
def Store.setUsernameEntry (s : Store) (k : String) (v : UsernameEntry) : Store :=
  { s with usernames := fun k2 => if k2 = k then some v else s.usernames k2 }

/-- Embeds `setDoc(doc(db, "portfolios", k), v)`: unconditional overwrite. -/
def Store.setPortfolio (s : Store) (k : String) (v : Doc) : Store :=
  { s with portfolios := fun k2 => if k2 = k then some v else s.portfolios k2 }

/-- ASCII uppercase test, `c` in `A`–`Z` (code points 65–90). -/
def isAsciiUpper (c : Char) : Bool :=
  65 ≤ c.toNat && c.toNat ≤ 90

/-- JavaScript `String.prototype.toLowerCase` on one character, restricted to
the ASCII range — the only range the username charset `[A-Za-z0-9_]` admits. -/
def lowerChar (c : Char) : Char :=
  if isAsciiUpper c then Char.ofNat (c.toNat + 32) else c

/-- Embeds `username.toLowerCase()`: the normalization applied by every availability
check, registry claim and account write in the source. -/
def normalize (s : String) : String :=
  ⟨s.data.map lowerChar⟩

/-- Word characters admitted by the zod regex `/^[a-zA-Z0-9_]+$/`. -/
def isWordChar (c : Char) : Bool :=
  (97 ≤ c.toNat && c.toNat ≤ 122) || (65 ≤ c.toNat && c.toNat ≤ 90) ||
    (48 ≤ c.toNat && c.toNat ≤ 57) || c = '_'

/-- The username constraints shared verbatim by `registerSchema`
(auth-form) and `profileSchema` (finish-profile): `.min(3)`, `.max(20)`,
`.regex(/^[a-zA-Z0-9_]+$/)`. -/
def validUsername (u : String) : Bool :=
  3 ≤ u.length && u.length ≤ 20 && u.data.all isWordChar

/-- Models the external zod `z.string().email()` validator (third-party
library code, not part of this repository): one `@` separating a nonempty
local part from a nonempty domain containing a dot.  No claim in this
development depends on the exact email regex. -/
def validEmail (e : String) : Bool :=
  e.data.count '@' = 1 &&
    match e.data.span (fun c => c ≠ '@') with
    | (lpart, _ :: dpart) =>
        !lpart.isEmpty && !dpart.isEmpty && dpart.contains '.'
    | (_, []) => false

/-- An authenticated principal as exposed by the identity provider: a stable
uid, an email, and an optional photo URL. -/
structure Principal where
  uid : String
  email : String
  photoURL : Option String
deriving DecidableEq, Repr

/-- One observable external interaction of a workflow run, in program order. -/
inductive Event where
  | readUsernames (key : String)
  | authCreate (email : String)
  | writeUsers (key : String)
  | writeUsernames (key : String)
  | writePortfolios (key : String)
deriving DecidableEq, Repr

/-- The result of one workflow run: its outcome, the resulting store, and the
ordered trace of external interactions it performed. -/
structure RunResult (α : Type) where
  outcome : α
  store : Store
  trace : List Event

/-- Embeds `checkUsernameUnique` (identical in auth-form.tsx and
finish-profile/page.tsx): `getDoc(doc(db, "usernames", username.toLowerCase()))`
and return `!docSnap.exists()`. -/
def checkUsernameUnique (s : Store) (username : String) : Bool :=
  (s.usernames (normalize username)).isNone

/-- The spec's §4.1 `isAvailable(candidate)`: realized in the source by
`checkUsernameUnique`. -/
def isAvailable (s : Store) (candidate : String) : Bool :=
  checkUsernameUnique s candidate

/-- The spec's §4.1 `claim(candidate, accountId)`: realized in the source by
`setDoc(doc(db, "usernames", username.toLowerCase()), { uid })` — an
unconditional overwrite. -/
def claim (s : Store) (candidate accountId : String) : Store :=
  s.setUsernameEntry (normalize candidate) ⟨accountId⟩

/-- The portfolio document seeded by the direct registration path
(auth-form.tsx, `onSubmit`, register branch). -/
def directPortfolioDoc : Doc :=
  [("fullName", .str "Your Name"),
   ("title", .str "Your Title"),
   ("bio", .str "A short bio about yourself."),
   ("profilePictureUrl", .str ""),
   ("skills", .arr [.str "React", .str "Next.js", .str "Firebase"]),
   ("projects", .arr []),
   ("theme", .str "default")]

/-- The portfolio document seeded by the federated completion path
(finish-profile/page.tsx, `onSubmit`).  `sessionPhotoURL` models
`user?.photoURL`; `·.getD ""` models `|| ""` (both `null` and the falsy empty
string yield `""`). -/
def federatedPortfolioDoc (sessionPhotoURL : Option String) : Doc :=
  [("fullName", .str "Your Name"),
   ("title", .str "Your Title"),
   ("bio", .str "A short bio about yourself."),
   ("profilePictureUrl", .str (sessionPhotoURL.getD "")),
   ("website", .str ""),
   ("skills", .arr [.obj [("name", .str "React")],
                    .obj [("name", .str "Next.js")],
                    .obj [("name", .str "Firebase")]]),
   ("projects", .arr []),
   ("workExperiences", .arr []),
   ("organizationExperiences", .arr []),
   ("educations", .arr []),
   ("certifications", .arr []),
   ("courses", .arr []),
   ("testimonials", .arr []),
   ("socialMedia", .arr []),
   ("theme", .str "default")]

/-- Outcome of a direct-registration submission. -/
inductive RegisterOutcome where
  /-- A zod schema failure or `form.setError(field, ...)`: a field-scoped
  validation message; the named field is the one flagged. -/
  | fieldError (field : String)
  /-- The `catch` branch: the identity provider rejected
  `createUserWithEmailAndPassword` and the error was surfaced as an
  "Authentication Error" toast. -/
  | authFailure (message : String)
  /-- Registration completed; the principal's uid is returned and the caller
  is redirected to `/dashboard`. -/
  | success (uid : String)
deriving DecidableEq, Repr

/-- The body of auth-form.tsx `onSubmit` in register mode, which the form
only runs on input that already passed `registerSchema`:
check availability, then `createUserWithEmailAndPassword`, then the three
writes (users, usernames, portfolios), in program order.  `idp` is the
environment's answer to the `createUserWithEmailAndPassword(auth, email,
password)` call; `now` is the value `serverTimestamp()` resolves to. -/
def registerOnSubmit (s : Store) (idp : Except String Principal) (now : Nat)
    (username email : String) : RunResult RegisterOutcome :=
  let key := normalize username
  if !(checkUsernameUnique s username) then
    ⟨.fieldError "username", s, [.readUsernames key]⟩
  else
    match idp with
    | .error msg =>
        ⟨.authFailure msg, s, [.readUsernames key, .authCreate email]⟩
    | .ok user =>
        let s1 := s.setUser user.uid ⟨key, user.email, now⟩
        let s2 := claim s1 username user.uid
        let s3 := s2.setPortfolio user.uid directPortfolioDoc
        ⟨.success user.uid, s3,
         [.readUsernames key, .authCreate email,
          .writeUsers user.uid, .writeUsernames key, .writePortfolios user.uid]⟩

/-- A full direct-registration submission: `zodResolver(registerSchema)`
validates the three fields (in schema field order) before `onSubmit` runs;
a schema failure yields a field-scoped error with no store interaction. -/
def registerSubmit (s : Store) (idp : Except String Principal) (now : Nat)
    (username email password : String) : RunResult RegisterOutcome :=
  if !(validUsername username) then ⟨.fieldError "username", s, []⟩
  else if !(validEmail email) then ⟨.fieldError "email", s, []⟩
  else if password.length < 6 then ⟨.fieldError "password", s, []⟩
  else registerOnSubmit s idp now username email

/-- Outcome of a federated-completion submission. -/
inductive FinishOutcome where
  /-- The `!uid || !email` guard on the query string: "Missing user information". -/
  | missingInfo
  /-- A zod schema failure or `form.setError("username", ...)`. -/
  | fieldError (field : String)
  /-- Completion succeeded; the caller is redirected to `/dashboard`. -/
  | success
deriving DecidableEq, Repr

/-- JavaScript falsiness of `searchParams.get(...)`: `null` or `""`. -/
def strFalsy (o : Option String) : Bool :=
  o.isNone || o = some ""

/-- The body of finish-profile/page.tsx `onSubmit`, which the form only runs
on input that already passed `profileSchema`: reject falsy query parameters,
check availability, then the three writes, in program order.  `uidParam` and
`emailParam` model `searchParams.get('uid')` / `searchParams.get('email')`;
`sessionPhotoURL` models `user?.photoURL` from the authenticated session. -/
def finishOnSubmit (s : Store) (now : Nat) (uidParam emailParam : Option String)
    (sessionPhotoURL : Option String) (username : String) :
    RunResult FinishOutcome :=
  if strFalsy uidParam || strFalsy emailParam then
    ⟨.missingInfo, s, []⟩
  else
    let uid := uidParam.getD ""
    let email := emailParam.getD ""
    let key := normalize username
    if !(checkUsernameUnique s username) then
      ⟨.fieldError "username", s, [.readUsernames key]⟩
    else
      let s1 := s.setUser uid ⟨key, email, now⟩
      let s2 := claim s1 username uid
      let s3 := s2.setPortfolio uid (federatedPortfolioDoc sessionPhotoURL)
      ⟨.success, s3,
       [.readUsernames key, .writeUsers uid, .writeUsernames key,
        .writePortfolios uid]⟩

/-- A full federated-completion submission: `zodResolver(profileSchema)`
validates the username before `onSubmit` runs. -/
def finishSubmit (s : Store) (now : Nat) (uidParam emailParam : Option String)
    (sessionPhotoURL : Option String) (username : String) :
    RunResult FinishOutcome :=
  if !(validUsername username) then ⟨.fieldError "username", s, []⟩
  else finishOnSubmit s now uidParam emailParam sessionPhotoURL username

/-- The `userData` computed by `AuthProvider` on every `onAuthStateChanged`
event: when a session user is present, a point read of `users/{uid}`; `none`
when the document is absent or there is no session. -/
def establishUserData (s : Store) (sessionUser : Option Principal) :
    Option UserRecord :=
  match sessionUser with
  | some u => s.users u.uid
  | none => none

/-- Where an authenticated session check lands. -/
inductive Route where
  | login
  | finishProfile
  | dashboard
deriving DecidableEq, Repr

/-- The branch structure of `DashboardPage`: no session user → `/login`;
session user but `userData` null → `/finish-profile`; otherwise render the
dashboard. -/
def dashboardRoute (sessionUser : Option Principal)
    (userData : Option UserRecord) : Route :=
  match sessionUser with
  | none => .login
  | some _ =>
      match userData with
      | none => .finishProfile
      | some _ => .dashboard

/-- One complete session check: `AuthProvider` establishes `userData` from
the store, then `DashboardPage` branches on it. -/
def sessionCheckRoute (s : Store) (sessionUser : Option Principal) : Route :=
  dashboardRoute sessionUser (establishUserData s sessionUser)

/-! ## Pointwise behaviour of the store primitives -/

@[simp] theorem Store.users_setUser (s : Store) (k : String) (v : UserRecord)
    (k2 : String) :
    (s.setUser k v).users k2 = if k2 = k then some v else s.users k2 := rfl

@[simp] theorem Store.usernames_setUser (s : Store) (k : String) (v : UserRecord)
    (k2 : String) : (s.setUser k v).usernames k2 = s.usernames k2 := rfl

@[simp] theorem Store.portfolios_setUser (s : Store) (k : String) (v : UserRecord)
    (k2 : String) : (s.setUser k v).portfolios k2 = s.portfolios k2 := rfl

@[simp] theorem Store.usernames_setUsernameEntry (s : Store) (k : String)
    (v : UsernameEntry) (k2 : String) :
    (s.setUsernameEntry k v).usernames k2 =
      if k2 = k then some v else s.usernames k2 := rfl

@[simp] theorem Store.users_setUsernameEntry (s : Store) (k : String)
    (v : UsernameEntry) (k2 : String) :
    (s.setUsernameEntry k v).users k2 = s.users k2 := rfl

@[simp] theorem Store.portfolios_setUsernameEntry (s : Store) (k : String)
    (v : UsernameEntry) (k2 : String) :
    (s.setUsernameEntry k v).portfolios k2 = s.portfolios k2 := rfl

@[simp] theorem Store.portfolios_setPortfolio (s : Store) (k : String) (v : Doc)
    (k2 : String) :
    (s.setPortfolio k v).portfolios k2 = if k2 = k then some v else s.portfolios k2 := rfl

@[simp] theorem Store.users_setPortfolio (s : Store) (k : String) (v : Doc)
    (k2 : String) : (s.setPortfolio k v).users k2 = s.users k2 := rfl

@[simp] theorem Store.usernames_setPortfolio (s : Store) (k : String) (v : Doc)
    (k2 : String) : (s.setPortfolio k v).usernames k2 = s.usernames k2 := rfl

/-! ## Case normalization -/

theorem toNat_lowerChar_of_upper {c : Char} (h : isAsciiUpper c = true) :
    (lowerChar c).toNat = c.toNat + 32 := by
  have h1 : 65 ≤ c.toNat ∧ c.toNat ≤ 90 := by
    simpa [isAsciiUpper, Bool.and_eq_true, decide_eq_true_eq] using h
  have hv : (c.toNat + 32).isValidChar := Or.inl (by omega)
  simp only [lowerChar, h, if_true]
  simp only [Char.ofNat, hv, dif_pos]
  rfl

theorem isAsciiUpper_lowerChar_eq_false {c : Char} (h : isAsciiUpper c = true) :
    isAsciiUpper (lowerChar c) = false := by
  have h1 : 65 ≤ c.toNat ∧ c.toNat ≤ 90 := by
    simpa [isAsciiUpper, Bool.and_eq_true, decide_eq_true_eq] using h
  have h2 := toNat_lowerChar_of_upper h
  simp only [isAsciiUpper, h2, Bool.and_eq_false_iff, decide_eq_false_iff_not]
  omega

theorem lowerChar_lowerChar (c : Char) : lowerChar (lowerChar c) = lowerChar c := by
  by_cases h : isAsciiUpper c = true
  · have h2 := isAsciiUpper_lowerChar_eq_false h
    conv in lowerChar (lowerChar c) => rw [lowerChar]
    simp [h2]
  · have h3 : isAsciiUpper c = false := by simpa using h
    have h4 : lowerChar c = c := by simp [lowerChar, h3]
    rw [h4, h4]

/-- Two characters are equal up to letter case when they are equal, or one is
an ASCII uppercase letter and the other is its lowercase form. -/
def charEqUpToCase (c d : Char) : Bool :=
  c = d || (isAsciiUpper c && d = lowerChar c) || (isAsciiUpper d && c = lowerChar d)

/-- Two strings differ only in letter case: same length and corresponding
characters equal up to case. -/
def eqUpToCase (u1 u2 : String) : Bool :=
  u1.data.length = u2.data.length &&
    (u1.data.zip u2.data).all (fun p => charEqUpToCase p.1 p.2)

theorem lowerChar_eq_of_charEqUpToCase {c d : Char}
    (h : charEqUpToCase c d = true) : lowerChar c = lowerChar d := by
  simp only [charEqUpToCase, Bool.or_eq_true, Bool.and_eq_true,
    decide_eq_true_eq] at h
  rcases h with (h | ⟨_, h⟩) | ⟨_, h⟩
  · rw [h]
  · rw [h, lowerChar_lowerChar]
  · rw [h, lowerChar_lowerChar]

theorem map_lowerChar_eq_of_eqUpToCase :
    ∀ (l1 l2 : List Char), l1.length = l2.length →
      ((l1.zip l2).all fun p => charEqUpToCase p.1 p.2) = true →
      l1.map lowerChar = l2.map lowerChar
  | [], [], _, _ => rfl
  | a :: l1, b :: l2, hlen, hall => by
      simp only [List.zip_cons_cons, List.all_cons, Bool.and_eq_true] at hall
      simp only [List.map_cons]
      rw [lowerChar_eq_of_charEqUpToCase hall.1,
        map_lowerChar_eq_of_eqUpToCase l1 l2 (by simpa using hlen) hall.2]

theorem normalize_eq_of_eqUpToCase {u1 u2 : String}
    (h : eqUpToCase u1 u2 = true) : normalize u1 = normalize u2 := by
  simp only [eqUpToCase, Bool.and_eq_true, decide_eq_true_eq] at h
  exact congrArg String.mk (map_lowerChar_eq_of_eqUpToCase _ _ h.1 h.2)

/-! ## Trace classifiers -/

/-- Is this event a write to the `users` collection? -/
def Event.isUserWrite : Event → Bool
  | .writeUsers _ => true
  | _ => false

/-- Is this event a write to the `usernames` registry collection? -/
def Event.isRegistryWrite : Event → Bool
  | .writeUsernames _ => true
  | _ => false

/-- Is this event a write to the `portfolios` collection? -/
def Event.isPortfolioWrite : Event → Bool
  | .writePortfolios _ => true
  | _ => false

/-- Is this event an identity-provider account creation? -/
def Event.isAuthCreate : Event → Bool
  | .authCreate _ => true
  | _ => false

/-- Is this event any store write? -/
def Event.isWrite (e : Event) : Bool :=
  e.isUserWrite || e.isRegistryWrite || e.isPortfolioWrite

/-! ## Claim theorems -/

/-- C1: for every username `u` and account identifiers `a` and `b` with
`b ≠ a`, after claiming (normalized) `u` for `a`, `isAvailable u` is false,
and a subsequent claim of `u` for `b` still goes through at the storage layer
(the write is an unconditional overwrite with no error path) and leaves the
registry entry at the normalized key pointing at `b`, not at `a`:
last-write-wins. -/
theorem claim_unconditional_last_write_wins (s : Store) (u a b : String)
    (hab : b ≠ a) :
    isAvailable (claim s u a) u = false ∧
    (claim (claim s u a) u b).usernames (normalize u) = some ⟨b⟩ ∧
    (claim (claim s u a) u b).usernames (normalize u) ≠ some ⟨a⟩ := by
  refine ⟨?_, ?_, ?_⟩ <;>
    simp [isAvailable, checkUsernameUnique, claim, Store.setUsernameEntry, hab]

/-- Witness for C1 at `u = "User_1"`, `a = "acct-1"`, `b = "acct-2"`. -/
theorem claim_unconditional_last_write_wins_witness :
    isAvailable (claim emptyStore "User_1" "acct-1") "User_1" = false ∧
    (claim (claim emptyStore "User_1" "acct-1") "User_1" "acct-2").usernames
      (normalize "User_1") = some ⟨"acct-2"⟩ ∧
    (claim (claim emptyStore "User_1" "acct-1") "User_1" "acct-2").usernames
      (normalize "User_1") ≠ some ⟨"acct-1"⟩ :=
  claim_unconditional_last_write_wins emptyStore "User_1" "acct-1" "acct-2"
    (by decide)

/-- C2: for every valid registration input (schema-valid username, email and
password, username available in the store) and a successful identity-provider
creation yielding principal `p`, the completed direct-registration run
produces exactly one `users` write, one `usernames` write and one
`portfolios` write, and the three records cross-reference the same account
identifier: `users/p.uid` stores the normalized username, the registry entry
at the normalized username stores `p.uid`, and the default portfolio is keyed
by `p.uid`. -/
theorem register_success_consistent_records (s : Store) (p : Principal)
    (now : Nat) (username email password : String)
    (hu : validUsername username = true)
    (he : validEmail email = true)
    (hp : 6 ≤ password.length)
    (havail : checkUsernameUnique s username = true) :
    (registerSubmit s (.ok p) now username email password).outcome =
      .success p.uid ∧
    (registerSubmit s (.ok p) now username email password).store.users p.uid =
      some ⟨normalize username, p.email, now⟩ ∧
    (registerSubmit s (.ok p) now username email password).store.usernames
      (normalize username) = some ⟨p.uid⟩ ∧
    (registerSubmit s (.ok p) now username email password).store.portfolios
      p.uid = some directPortfolioDoc ∧
    ((registerSubmit s (.ok p) now username email password).trace.filter
      Event.isUserWrite).length = 1 ∧
    ((registerSubmit s (.ok p) now username email password).trace.filter
      Event.isRegistryWrite).length = 1 ∧
    ((registerSubmit s (.ok p) now username email password).trace.filter
      Event.isPortfolioWrite).length = 1 := by
  have hlen : ¬ password.length < 6 := by omega
  refine ⟨?_, ?_, ?_, ?_, ?_, ?_, ?_⟩ <;>
    simp [registerSubmit, hu, he, hlen, registerOnSubmit, havail, claim,
      Event.isUserWrite, Event.isRegistryWrite, Event.isPortfolioWrite]

/-- Witness for C2: registering `new_user_1` / `u@example.com` from the empty
store with principal `acct-1`. -/
theorem register_success_consistent_records_witness :
    (registerSubmit emptyStore (.ok ⟨"acct-1", "u@example.com", none⟩) 5
      "new_user_1" "u@example.com" "secret1").outcome = .success "acct-1" ∧
    (registerSubmit emptyStore (.ok ⟨"acct-1", "u@example.com", none⟩) 5
      "new_user_1" "u@example.com" "secret1").store.users "acct-1" =
      some ⟨normalize "new_user_1", "u@example.com", 5⟩ ∧
    (registerSubmit emptyStore (.ok ⟨"acct-1", "u@example.com", none⟩) 5
      "new_user_1" "u@example.com" "secret1").store.usernames
      (normalize "new_user_1") = some ⟨"acct-1"⟩ ∧
    (registerSubmit emptyStore (.ok ⟨"acct-1", "u@example.com", none⟩) 5
      "new_user_1" "u@example.com" "secret1").store.portfolios "acct-1" =
      some directPortfolioDoc ∧
    ((registerSubmit emptyStore (.ok ⟨"acct-1", "u@example.com", none⟩) 5
      "new_user_1" "u@example.com" "secret1").trace.filter
      Event.isUserWrite).length = 1 ∧
    ((registerSubmit emptyStore (.ok ⟨"acct-1", "u@example.com", none⟩) 5
      "new_user_1" "u@example.com" "secret1").trace.filter
      Event.isRegistryWrite).length = 1 ∧
    ((registerSubmit emptyStore (.ok ⟨"acct-1", "u@example.com", none⟩) 5
      "new_user_1" "u@example.com" "secret1").trace.filter
      Event.isPortfolioWrite).length = 1 :=
  register_success_consistent_records emptyStore ⟨"acct-1", "u@example.com", none⟩
    5 "new_user_1" "u@example.com" "secret1" (by decide) (by decide)
    (by decide) (by decide)

/-- C3 counterexample: in the direct flow with username `taken_name` already
claimed, the run aborts with a username validation error and its trace is the
single registry read — the identity provider was never called, so no
"already-created" principal exists, and the availability check was not
preceded by an identity-provider authentication step. -/
theorem register_no_principal_on_taken_username :
    (registerSubmit (claim emptyStore "taken_name" "acct-0")
      (.ok ⟨"acct-1", "u@example.com", none⟩) 5 "taken_name" "u@example.com"
      "secret1").outcome = .fieldError "username" ∧
    (registerSubmit (claim emptyStore "taken_name" "acct-0")
      (.ok ⟨"acct-1", "u@example.com", none⟩) 5 "taken_name" "u@example.com"
      "secret1").trace = [.readUsernames "taken_name"] ∧
    Event.authCreate "u@example.com" ∉
      (registerSubmit (claim emptyStore "taken_name" "acct-0")
        (.ok ⟨"acct-1", "u@example.com", none⟩) 5 "taken_name" "u@example.com"
        "secret1").trace := by
  refine ⟨rfl, rfl, ?_⟩
  decide

/-- C3 (amended): in the direct registration flow the username availability
check is the first external interaction — it precedes the identity-provider
create — and for every attempt whose candidate username is unavailable, the
workflow aborts with a validation error scoped to the username field, the
store is unchanged, and the trace is the single registry read: no store write
has happened and no identity-provider principal has been created. -/
theorem register_check_precedes_auth (s : Store) (idp : Except String Principal)
    (now : Nat) (username email password : String)
    (hu : validUsername username = true)
    (he : validEmail email = true)
    (hp : 6 ≤ password.length) :
    (registerSubmit s idp now username email password).trace.head? =
      some (.readUsernames (normalize username)) ∧
    (checkUsernameUnique s username = false →
      (registerSubmit s idp now username email password).outcome =
        .fieldError "username" ∧
      (registerSubmit s idp now username email password).store = s ∧
      (registerSubmit s idp now username email password).trace =
        [.readUsernames (normalize username)]) := by
  have hlen : ¬ password.length < 6 := by omega
  by_cases hav : checkUsernameUnique s username = true
  · cases idp <;>
      simp [registerSubmit, hu, he, hlen, registerOnSubmit, hav]
  · have hav2 : checkUsernameUnique s username = false := by
      simpa using hav
    cases idp <;>
      simp [registerSubmit, hu, he, hlen, registerOnSubmit, hav2]

/-- Witness for C3 (amended) at a store where `taken_name` is claimed. -/
theorem register_check_precedes_auth_witness :
    (registerSubmit (claim emptyStore "taken_name" "acct-0")
      (.ok ⟨"acct-1", "u@example.com", none⟩) 5 "taken_name" "u@example.com"
      "secret1").trace.head? = some (.readUsernames (normalize "taken_name")) ∧
    (checkUsernameUnique (claim emptyStore "taken_name" "acct-0") "taken_name" =
        false →
      (registerSubmit (claim emptyStore "taken_name" "acct-0")
        (.ok ⟨"acct-1", "u@example.com", none⟩) 5 "taken_name" "u@example.com"
        "secret1").outcome = .fieldError "username" ∧
      (registerSubmit (claim emptyStore "taken_name" "acct-0")
        (.ok ⟨"acct-1", "u@example.com", none⟩) 5 "taken_name" "u@example.com"
        "secret1").store = claim emptyStore "taken_name" "acct-0" ∧
      (registerSubmit (claim emptyStore "taken_name" "acct-0")
        (.ok ⟨"acct-1", "u@example.com", none⟩) 5 "taken_name" "u@example.com"
        "secret1").trace = [.readUsernames (normalize "taken_name")]) :=
  register_check_precedes_auth (claim emptyStore "taken_name" "acct-0")
    (.ok ⟨"acct-1", "u@example.com", none⟩) 5 "taken_name" "u@example.com"
    "secret1" (by decide) (by decide) (by decide)

/-- C4 counterexample: with identical inputs (username `new_user_1`, email
`u@example.com`, account identifier `acct-1`, empty avatar URL), the direct
path and the federated completion path seed different profile documents —
the federated one has a `website` field, the direct one does not. -/
theorem federated_profile_differs_from_direct :
    (registerSubmit emptyStore (.ok ⟨"acct-1", "u@example.com", some ""⟩) 5
      "new_user_1" "u@example.com" "secret1").store.portfolios "acct-1" ≠
    (finishSubmit emptyStore 5 (some "acct-1") (some "u@example.com")
      (some "") "new_user_1").store.portfolios "acct-1" := by
  intro h
  have h1 : (registerSubmit emptyStore (.ok ⟨"acct-1", "u@example.com", some ""⟩)
      5 "new_user_1" "u@example.com" "secret1").store.portfolios "acct-1" =
      some directPortfolioDoc := rfl
  have h2 : (finishSubmit emptyStore 5 (some "acct-1") (some "u@example.com")
      (some "") "new_user_1").store.portfolios "acct-1" =
      some (federatedPortfolioDoc (some "")) := rfl
  have hd : directPortfolioDoc = federatedPortfolioDoc (some "") :=
    Option.some.inj ((h1.symm.trans h).trans h2)
  have h3 : docField directPortfolioDoc "website" =
      docField (federatedPortfolioDoc (some "")) "website" := by rw [hd]
  rw [show docField directPortfolioDoc "website" = none from rfl] at h3
  rw [show docField (federatedPortfolioDoc (some "")) "website" =
      some (.str "") from rfl] at h3
  exact Option.noConfusion h3

/-- C4 (amended): for the same inputs (candidate username, email, account
identifier, session avatar), the federated completion flow performs the same
availability check first, and on success writes the same Account record and
the same registry entry as the direct flow; but the seeded profile documents
differ between the two paths (`directPortfolioDoc` versus
`federatedPortfolioDoc`, which have different field shapes). -/
theorem federated_matches_direct_except_profile (s : Store) (now : Nat)
    (uid email username password : String) (photo : Option String)
    (hu : validUsername username = true)
    (he : validEmail email = true)
    (hp : 6 ≤ password.length)
    (huid : uid ≠ "")
    (hemail : email ≠ "")
    (havail : checkUsernameUnique s username = true) :
    (registerSubmit s (.ok ⟨uid, email, photo⟩) now username email
      password).outcome = .success uid ∧
    (finishSubmit s now (some uid) (some email) photo username).outcome =
      .success ∧
    (registerSubmit s (.ok ⟨uid, email, photo⟩) now username email
      password).trace.head? =
      (finishSubmit s now (some uid) (some email) photo username).trace.head? ∧
    (∀ k, (registerSubmit s (.ok ⟨uid, email, photo⟩) now username email
        password).store.users k =
      (finishSubmit s now (some uid) (some email) photo username).store.users
        k) ∧
    (∀ k, (registerSubmit s (.ok ⟨uid, email, photo⟩) now username email
        password).store.usernames k =
      (finishSubmit s now (some uid) (some email) photo
        username).store.usernames k) ∧
    (registerSubmit s (.ok ⟨uid, email, photo⟩) now username email
      password).store.portfolios uid = some directPortfolioDoc ∧
    (finishSubmit s now (some uid) (some email) photo
      username).store.portfolios uid = some (federatedPortfolioDoc photo) := by
  have hlen : ¬ password.length < 6 := by omega
  have hfal1 : strFalsy (some uid) = false := by simp [strFalsy, huid]
  have hfal2 : strFalsy (some email) = false := by simp [strFalsy, hemail]
  refine ⟨?_, ?_, ?_, ?_, ?_, ?_, ?_⟩ <;>
    simp [registerSubmit, registerOnSubmit, finishSubmit, finishOnSubmit, hu,
      he, hlen, hfal1, hfal2, havail, claim]

/-- Witness for C4 (amended) at `new_user_1` / `u@example.com` / `acct-1`. -/
theorem federated_matches_direct_except_profile_witness :
    (registerSubmit emptyStore (.ok ⟨"acct-1", "u@example.com", none⟩) 5
      "new_user_1" "u@example.com" "secret1").outcome = .success "acct-1" ∧
    (finishSubmit emptyStore 5 (some "acct-1") (some "u@example.com") none
      "new_user_1").outcome = .success ∧
    (registerSubmit emptyStore (.ok ⟨"acct-1", "u@example.com", none⟩) 5
      "new_user_1" "u@example.com" "secret1").trace.head? =
      (finishSubmit emptyStore 5 (some "acct-1") (some "u@example.com") none
        "new_user_1").trace.head? ∧
    (∀ k, (registerSubmit emptyStore (.ok ⟨"acct-1", "u@example.com", none⟩) 5
        "new_user_1" "u@example.com" "secret1").store.users k =
      (finishSubmit emptyStore 5 (some "acct-1") (some "u@example.com") none
        "new_user_1").store.users k) ∧
    (∀ k, (registerSubmit emptyStore (.ok ⟨"acct-1", "u@example.com", none⟩) 5
        "new_user_1" "u@example.com" "secret1").store.usernames k =
      (finishSubmit emptyStore 5 (some "acct-1") (some "u@example.com") none
        "new_user_1").store.usernames k) ∧
    (registerSubmit emptyStore (.ok ⟨"acct-1", "u@example.com", none⟩) 5
      "new_user_1" "u@example.com" "secret1").store.portfolios "acct-1" =
      some directPortfolioDoc ∧
    (finishSubmit emptyStore 5 (some "acct-1") (some "u@example.com") none
      "new_user_1").store.portfolios "acct-1" =
      some (federatedPortfolioDoc none) :=
  federated_matches_direct_except_profile emptyStore 5 "acct-1"
    "u@example.com" "new_user_1" "secret1" none (by decide) (by decide)
    (by decide) (by decide) (by decide) (by decide)

/-- C5 counterexample: the seeded skills collection is not empty — both paths
seed three placeholder skills — and the direct path omits the education
collection (among others) entirely rather than seeding it empty. -/
theorem seeded_profile_skills_not_empty :
    docField directPortfolioDoc "skills" =
      some (.arr [.str "React", .str "Next.js", .str "Firebase"]) ∧
    docField directPortfolioDoc "skills" ≠ some (.arr []) ∧
    docField (federatedPortfolioDoc none) "skills" ≠ some (.arr []) ∧
    docField directPortfolioDoc "educations" = none := by
  refine ⟨rfl, ?_, ?_, rfl⟩
  · intro h
    rw [show docField directPortfolioDoc "skills" =
        some (.arr [.str "React", .str "Next.js", .str "Firebase"]) from
        rfl] at h
    simp at h
  · intro h
    rw [show docField (federatedPortfolioDoc none) "skills" =
        some (.arr [.obj [("name", .str "React")],
          .obj [("name", .str "Next.js")],
          .obj [("name", .str "Firebase")]]) from rfl] at h
    simp at h

/-- C5 (amended): for every account identifier and session avatar, the
profile-seeding step writes placeholder full name, title and bio, a default
theme token, and an empty projects collection; but skills is seeded with
three placeholder entries (not empty); the federated path additionally seeds
empty website, work/organization experience, education, certification,
course, testimonial and social-media collections and the session avatar URL
or the empty string, while the direct path omits those fields entirely and
always writes an empty avatar URL. -/
theorem seeded_profile_defaults (photo : Option String) :
    docField directPortfolioDoc "fullName" = some (.str "Your Name") ∧
    docField directPortfolioDoc "title" = some (.str "Your Title") ∧
    docField directPortfolioDoc "bio" =
      some (.str "A short bio about yourself.") ∧
    docField directPortfolioDoc "profilePictureUrl" = some (.str "") ∧
    docField directPortfolioDoc "skills" =
      some (.arr [.str "React", .str "Next.js", .str "Firebase"]) ∧
    docField directPortfolioDoc "projects" = some (.arr []) ∧
    docField directPortfolioDoc "theme" = some (.str "default") ∧
    docField directPortfolioDoc "website" = none ∧
    docField directPortfolioDoc "workExperiences" = none ∧
    docField directPortfolioDoc "organizationExperiences" = none ∧
    docField directPortfolioDoc "educations" = none ∧
    docField directPortfolioDoc "certifications" = none ∧
    docField directPortfolioDoc "courses" = none ∧
    docField directPortfolioDoc "testimonials" = none ∧
    docField directPortfolioDoc "socialMedia" = none ∧
    docField (federatedPortfolioDoc photo) "fullName" =
      some (.str "Your Name") ∧
    docField (federatedPortfolioDoc photo) "title" = some (.str "Your Title") ∧
    docField (federatedPortfolioDoc photo) "bio" =
      some (.str "A short bio about yourself.") ∧
    docField (federatedPortfolioDoc photo) "profilePictureUrl" =
      some (.str (photo.getD "")) ∧
    docField (federatedPortfolioDoc photo) "website" = some (.str "") ∧
    docField (federatedPortfolioDoc photo) "skills" =
      some (.arr [.obj [("name", .str "React")],
        .obj [("name", .str "Next.js")], .obj [("name", .str "Firebase")]]) ∧
    docField (federatedPortfolioDoc photo) "projects" = some (.arr []) ∧
    docField (federatedPortfolioDoc photo) "workExperiences" =
      some (.arr []) ∧
    docField (federatedPortfolioDoc photo) "organizationExperiences" =
      some (.arr []) ∧
    docField (federatedPortfolioDoc photo) "educations" = some (.arr []) ∧
    docField (federatedPortfolioDoc photo) "certifications" =
      some (.arr []) ∧
    docField (federatedPortfolioDoc photo) "courses" = some (.arr []) ∧
    docField (federatedPortfolioDoc photo) "testimonials" = some (.arr []) ∧
    docField (federatedPortfolioDoc photo) "socialMedia" = some (.arr []) ∧
    docField (federatedPortfolioDoc photo) "theme" = some (.str "default") :=
  ⟨rfl, rfl, rfl, rfl, rfl, rfl, rfl, rfl, rfl, rfl, rfl, rfl, rfl, rfl, rfl,
   rfl, rfl, rfl, rfl, rfl, rfl, rfl, rfl, rfl, rfl, rfl, rfl, rfl, rfl, rfl⟩

/-- C6 counterexample: two federated-completion runs under the same
authenticated session (same avatar) and the same chosen username but
different URL query parameters write different records: the first writes an
Account at `acct-1` with email `a@x.com`, the second writes nothing at
`acct-1` at all. -/
theorem finish_records_depend_on_query_params :
    (finishSubmit emptyStore 5 (some "acct-1") (some "a@x.com") none
      "new_user_1").store.users "acct-1" =
      some ⟨"new_user_1", "a@x.com", 5⟩ ∧
    (finishSubmit emptyStore 5 (some "acct-2") (some "b@y.com") none
      "new_user_1").store.users "acct-1" = none := by
  exact ⟨rfl, rfl⟩

/-- C6 (amended): in the federated completion flow the account identifier and
email used for the Account, registry and profile writes are the
caller-supplied URL query parameters `uid` and `email`, not values from the
authenticated session; only the avatar URL is read from the session.  On a
successful run the Account is keyed by the query `uid` and stores the query
`email`, the registry entry stores the query `uid`, and the profile stores
the session avatar (or `""`). -/
theorem finish_uses_query_params (s : Store) (now : Nat)
    (uid email username : String) (photo : Option String)
    (hu : validUsername username = true)
    (huid : uid ≠ "")
    (hemail : email ≠ "")
    (havail : checkUsernameUnique s username = true) :
    (finishSubmit s now (some uid) (some email) photo username).outcome =
      .success ∧
    (finishSubmit s now (some uid) (some email) photo username).store.users
      uid = some ⟨normalize username, email, now⟩ ∧
    (finishSubmit s now (some uid) (some email) photo
      username).store.usernames (normalize username) = some ⟨uid⟩ ∧
    (finishSubmit s now (some uid) (some email) photo
      username).store.portfolios uid = some (federatedPortfolioDoc photo) ∧
    docField (federatedPortfolioDoc photo) "profilePictureUrl" =
      some (.str (photo.getD "")) := by
  have hfal1 : strFalsy (some uid) = false := by simp [strFalsy, huid]
  have hfal2 : strFalsy (some email) = false := by simp [strFalsy, hemail]
  refine ⟨?_, ?_, ?_, ?_, rfl⟩ <;>
    simp [finishSubmit, finishOnSubmit, hu, hfal1, hfal2, havail, claim]

/-- Witness for C6 (amended) at `acct-1` / `a@x.com` / `new_user_1`. -/
theorem finish_uses_query_params_witness :
    (finishSubmit emptyStore 5 (some "acct-1") (some "a@x.com") none
      "new_user_1").outcome = .success ∧
    (finishSubmit emptyStore 5 (some "acct-1") (some "a@x.com") none
      "new_user_1").store.users "acct-1" =
      some ⟨normalize "new_user_1", "a@x.com", 5⟩ ∧
    (finishSubmit emptyStore 5 (some "acct-1") (some "a@x.com") none
      "new_user_1").store.usernames (normalize "new_user_1") =
      some ⟨"acct-1"⟩ ∧
    (finishSubmit emptyStore 5 (some "acct-1") (some "a@x.com") none
      "new_user_1").store.portfolios "acct-1" =
      some (federatedPortfolioDoc none) ∧
    docField (federatedPortfolioDoc none) "profilePictureUrl" =
      some (.str ((none : Option String).getD "")) :=
  finish_uses_query_params emptyStore 5 "acct-1" "a@x.com" "new_user_1" none
    (by decide) (by decide) (by decide) (by decide)

/-- C7: usernames differing only in letter case normalize to the same
registry key, so the availability check, the registry claim and the Account
write (all of which apply `normalize`) treat them as the same key; and after
`Alice` is successfully registered, a subsequent attempt to register `alice`
is rejected as unavailable. -/
theorem username_case_insensitive :
    (∀ u1 u2 s a, eqUpToCase u1 u2 = true →
      normalize u1 = normalize u2 ∧
      checkUsernameUnique s u1 = checkUsernameUnique s u2 ∧
      claim s u1 a = claim s u2 a) ∧
    (∀ s (p : Principal) now e1 pw1 (idp2 : Except String Principal) now2 e2
        pw2,
      validEmail e1 = true → 6 ≤ pw1.length →
      validEmail e2 = true → 6 ≤ pw2.length →
      checkUsernameUnique s "Alice" = true →
      (registerSubmit s (.ok p) now "Alice" e1 pw1).outcome =
        .success p.uid ∧
      (registerSubmit (registerSubmit s (.ok p) now "Alice" e1 pw1).store
        idp2 now2 "alice" e2 pw2).outcome = .fieldError "username") := by
  constructor
  · intro u1 u2 s a h
    have hn := normalize_eq_of_eqUpToCase h
    exact ⟨hn, by rw [checkUsernameUnique, checkUsernameUnique, hn],
      by rw [claim, claim, hn]⟩
  · intro s p now e1 pw1 idp2 now2 e2 pw2 he1 hp1 he2 hp2 havail
    have hlen1 : ¬ pw1.length < 6 := by omega
    have hlen2 : ¬ pw2.length < 6 := by omega
    have hA : normalize "Alice" = "alice" := rfl
    have hval1 : validUsername "Alice" = true := by decide
    have hval2 : validUsername "alice" = true := by decide
    have hA2 : normalize "alice" = "alice" := rfl
    have havail2 : s.usernames "alice" = none := by
      simpa [checkUsernameUnique, hA, Option.isNone_iff_eq_none] using havail
    constructor
    · simp [registerSubmit, hval1, he1, hlen1, registerOnSubmit, havail]
    · set t := (registerSubmit s (.ok p) now "Alice" e1 pw1).store with ht
      have hcheck : checkUsernameUnique t "alice" = false := by
        rw [ht]
        simp [registerSubmit, hval1, he1, hlen1, registerOnSubmit, havail2,
          claim, checkUsernameUnique, hA, hA2]
      cases idp2 <;>
        simp [registerSubmit, hval2, he2, hlen2, registerOnSubmit, hcheck]

/-- Witness for C7 at `"Alice"` / `"alice"`, registering from the empty
store with account `acct-1`. -/
theorem username_case_insensitive_witness :
    (normalize "Alice" = normalize "alice" ∧
      checkUsernameUnique emptyStore "Alice" =
        checkUsernameUnique emptyStore "alice" ∧
      claim emptyStore "Alice" "acct-1" = claim emptyStore "alice" "acct-1") ∧
    ((registerSubmit emptyStore (.ok ⟨"acct-1", "u@example.com", none⟩) 5
        "Alice" "u@example.com" "secret1").outcome = .success "acct-1" ∧
      (registerSubmit (registerSubmit emptyStore
          (.ok ⟨"acct-1", "u@example.com", none⟩) 5 "Alice" "u@example.com"
          "secret1").store (.ok ⟨"acct-2", "v@example.com", none⟩) 6 "alice"
        "v@example.com" "secret2").outcome = .fieldError "username") :=
  ⟨username_case_insensitive.1 "Alice" "alice" emptyStore "acct-1" (by decide),
   username_case_insensitive.2 emptyStore ⟨"acct-1", "u@example.com", none⟩ 5
     "u@example.com" "secret1" (.ok ⟨"acct-2", "v@example.com", none⟩) 6
     "v@example.com" "secret2" (by decide) (by decide) (by decide) (by decide)
     (by decide)⟩

/-- C8: on every session check, `AuthProvider` looks up `users/{uid}` for the
authenticated account identifier, and absence of that record is the sole
signal that routes the principal to the completion flow instead of the
dashboard; a missing session routes to login; and once a federated completion
for that identifier succeeds, the same session check routes to the dashboard
(so the completion routing recurs exactly until completion succeeds). -/
theorem session_routing_on_missing_account :
    (∀ s (p : Principal),
      sessionCheckRoute s (some p) = .finishProfile ↔ s.users p.uid = none) ∧
    (∀ s, sessionCheckRoute s none = .login) ∧
    (∀ s now uid email photo username, uid ≠ "" →
      (finishSubmit s now (some uid) (some email) photo username).outcome =
        .success →
      ∀ p : Principal, p.uid = uid →
        sessionCheckRoute
          (finishSubmit s now (some uid) (some email) photo username).store
          (some p) = .dashboard) := by
  refine ⟨?_, ?_, ?_⟩
  · intro s p
    cases h : s.users p.uid <;>
      simp [sessionCheckRoute, establishUserData, dashboardRoute, h]
  · intro s
    simp [sessionCheckRoute, establishUserData, dashboardRoute]
  · intro s now uid email photo username huid hsuccess p hpuid
    by_cases hv : validUsername username = true
    · by_cases hf : strFalsy (some email) = true
      · exfalso
        simp [finishSubmit, finishOnSubmit, hv, hf] at hsuccess
      · have hf1 : strFalsy (some uid) = false := by simp [strFalsy, huid]
        have hf2 : strFalsy (some email) = false := by simpa using hf
        by_cases hav : checkUsernameUnique s username = true
        · simp [finishSubmit, finishOnSubmit, hv, hf1, hf2, hav,
            sessionCheckRoute, establishUserData, dashboardRoute, claim,
            hpuid]
        · exfalso
          have hav2 : checkUsernameUnique s username = false := by
            simpa using hav
          simp [finishSubmit, finishOnSubmit, hv, hf1, hf2, hav2]
            at hsuccess
    · exfalso
      have hv2 : validUsername username = false := by simpa using hv
      simp [finishSubmit, hv2] at hsuccess

/-- Witness for C8: the empty store routes principal `acct-2` to completion;
after a successful completion for `acct-2`, the same check routes to the
dashboard. -/
theorem session_routing_on_missing_account_witness :
    (sessionCheckRoute emptyStore (some ⟨"acct-2", "e@x.com", none⟩) =
        .finishProfile ↔ emptyStore.users "acct-2" = none) ∧
    sessionCheckRoute emptyStore none = .login ∧
    sessionCheckRoute
      (finishSubmit emptyStore 5 (some "acct-2") (some "e@x.com") none
        "new_user_1").store (some ⟨"acct-2", "e@x.com", none⟩) = .dashboard :=
  ⟨session_routing_on_missing_account.1 emptyStore ⟨"acct-2", "e@x.com", none⟩,
   session_routing_on_missing_account.2.1 emptyStore,
   session_routing_on_missing_account.2.2 emptyStore 5 "acct-2" "e@x.com"
     none "new_user_1" (by decide) (by decide) ⟨"acct-2", "e@x.com", none⟩
     rfl⟩

/-- C9: every candidate username that is shorter than 3 characters, longer
than 20, or contains a character outside `[A-Za-z0-9_]` is rejected by schema
validation in both the direct registration flow and the federated completion
flow before any store interaction: the outcome is a username-scoped
validation error, the store is unchanged, and the trace is empty (zero store
reads and zero store writes). -/
theorem invalid_username_no_store_interaction (u : String)
    (hbad : u.length < 3 ∨ 20 < u.length ∨ ∃ c ∈ u.data, isWordChar c = false)
    (s : Store) (idp : Except String Principal) (now now2 : Nat)
    (email password : String) (uidParam emailParam photo : Option String) :
    (registerSubmit s idp now u email password).outcome =
      .fieldError "username" ∧
    (registerSubmit s idp now u email password).store = s ∧
    (registerSubmit s idp now u email password).trace = [] ∧
    (finishSubmit s now2 uidParam emailParam photo u).outcome =
      .fieldError "username" ∧
    (finishSubmit s now2 uidParam emailParam photo u).store = s ∧
    (finishSubmit s now2 uidParam emailParam photo u).trace = [] := by
  have hv : ¬ (validUsername u = true) := by
    simp only [validUsername, Bool.and_eq_true, decide_eq_true_eq,
      List.all_eq_true]
    rintro ⟨⟨h3, h20⟩, hall⟩
    rcases hbad with h | h | ⟨c, hc, hcw⟩
    · omega
    · omega
    · exact absurd (hall c hc) (by simp [hcw])
  have hv2 : validUsername u = false := by simpa using hv
  refine ⟨?_, ?_, ?_, ?_, ?_, ?_⟩ <;> simp [registerSubmit, finishSubmit, hv2]

/-- Witness for C9 at the two-character username `ab`. -/
theorem invalid_username_no_store_interaction_witness :
    (registerSubmit emptyStore (.ok ⟨"acct-1", "u@example.com", none⟩) 5 "ab"
      "u@example.com" "secret1").outcome = .fieldError "username" ∧
    (registerSubmit emptyStore (.ok ⟨"acct-1", "u@example.com", none⟩) 5 "ab"
      "u@example.com" "secret1").store = emptyStore ∧
    (registerSubmit emptyStore (.ok ⟨"acct-1", "u@example.com", none⟩) 5 "ab"
      "u@example.com" "secret1").trace = [] ∧
    (finishSubmit emptyStore 6 (some "acct-2") (some "e@x.com") none
      "ab").outcome = .fieldError "username" ∧
    (finishSubmit emptyStore 6 (some "acct-2") (some "e@x.com") none
      "ab").store = emptyStore ∧
    (finishSubmit emptyStore 6 (some "acct-2") (some "e@x.com") none
      "ab").trace = [] :=
  invalid_username_no_store_interaction "ab" (by decide) emptyStore
    (.ok ⟨"acct-1", "u@example.com", none⟩) 5 6 "u@example.com" "secret1"
    (some "acct-2") (some "e@x.com") none

/-- Shape analysis of a direct-registration run: the store is either
untouched, or is exactly the three sequential writes keyed by the
principal's uid and the normalized username. -/
theorem registerSubmit_store_cases (s : Store) (idp : Except String Principal)
    (now : Nat) (u e pw : String) :
    (registerSubmit s idp now u e pw).store = s ∨
    ∃ p, idp = .ok p ∧
      (registerSubmit s idp now u e pw).store =
        ((s.setUser p.uid ⟨normalize u, p.email, now⟩).setUsernameEntry
          (normalize u) ⟨p.uid⟩).setPortfolio p.uid directPortfolioDoc := by
  by_cases hv : validUsername u = true
  · by_cases he : validEmail e = true
    · by_cases hp : pw.length < 6
      · left
        simp [registerSubmit, hv, he, hp]
      · by_cases hav : checkUsernameUnique s u = true
        · cases idp with
          | error m =>
              left
              simp [registerSubmit, hv, he, hp, registerOnSubmit, hav]
          | ok p =>
              right
              exact ⟨p, rfl, by
                simp [registerSubmit, hv, he, hp, registerOnSubmit, hav,
                  claim]⟩
        · left
          have hav2 : checkUsernameUnique s u = false := by simpa using hav
          cases idp <;>
            simp [registerSubmit, hv, he, hp, registerOnSubmit, hav2]
    · left
      have he2 : validEmail e = false := by simpa using he
      simp [registerSubmit, hv, he2]
  · left
    have hv2 : validUsername u = false := by simpa using hv
    simp [registerSubmit, hv2]

/-- Shape analysis of a federated-completion run: the store is either
untouched, or is exactly the three sequential writes keyed by the query-string
uid and the normalized username. -/
theorem finishSubmit_store_cases (s : Store) (now : Nat)
    (uidParam emailParam photo : Option String) (u : String) :
    (finishSubmit s now uidParam emailParam photo u).store = s ∨
    ∃ uid em, uidParam = some uid ∧ emailParam = some em ∧
      (finishSubmit s now uidParam emailParam photo u).store =
        ((s.setUser uid ⟨normalize u, em, now⟩).setUsernameEntry
          (normalize u) ⟨uid⟩).setPortfolio uid
          (federatedPortfolioDoc photo) := by
  by_cases hv : validUsername u = true
  · cases uidParam with
    | none =>
        left
        simp [finishSubmit, finishOnSubmit, hv, strFalsy]
    | some uid =>
        cases emailParam with
        | none =>
            left
            simp [finishSubmit, finishOnSubmit, hv, strFalsy]
        | some em =>
            by_cases huid0 : uid = ""
            · left
              simp [finishSubmit, finishOnSubmit, hv, strFalsy, huid0]
            · by_cases hem0 : em = ""
              · left
                simp [finishSubmit, finishOnSubmit, hv, strFalsy, huid0,
                  hem0]
              · by_cases hav : checkUsernameUnique s u = true
                · right
                  exact ⟨uid, em, rfl, rfl, by
                    simp [finishSubmit, finishOnSubmit, hv, strFalsy, huid0,
                      hem0, hav, claim]⟩
                · left
                  have hav2 : checkUsernameUnique s u = false := by
                    simpa using hav
                  simp [finishSubmit, finishOnSubmit, hv, strFalsy, huid0,
                    hem0, hav2]
  · left
    have hv2 : validUsername u = false := by simpa using hv
    simp [finishSubmit, hv2]

/-- The three sequential writes touch exactly the written keys, and delete
nothing. -/
theorem written_store_frame (s : Store) (uid key : String) (rec : UserRecord)
    (entry : UsernameEntry) (d : Doc) :
    (∀ k, (((s.setUser uid rec).setUsernameEntry key entry).setPortfolio uid
        d).users k ≠ s.users k → k = uid) ∧
    (∀ k, (((s.setUser uid rec).setUsernameEntry key entry).setPortfolio uid
        d).usernames k ≠ s.usernames k → k = key) ∧
    (∀ k, (((s.setUser uid rec).setUsernameEntry key entry).setPortfolio uid
        d).portfolios k ≠ s.portfolios k → k = uid) ∧
    (∀ k, (((s.setUser uid rec).setUsernameEntry key entry).setPortfolio uid
        d).users k = none → s.users k = none) ∧
    (∀ k, (((s.setUser uid rec).setUsernameEntry key entry).setPortfolio uid
        d).usernames k = none → s.usernames k = none) ∧
    (∀ k, (((s.setUser uid rec).setUsernameEntry key entry).setPortfolio uid
        d).portfolios k = none → s.portfolios k = none) := by
  refine ⟨?_, ?_, ?_, ?_, ?_, ?_⟩ <;> intro k h
  · by_cases hk : k = uid
    · exact hk
    · exfalso
      apply h
      simp [hk]
  · by_cases hk : k = key
    · exact hk
    · exfalso
      apply h
      simp [hk]
  · by_cases hk : k = uid
    · exact hk
    · exfalso
      apply h
      simp [hk]
  · by_cases hk : k = uid
    · simp [hk] at h
    · simpa [hk] using h
  · by_cases hk : k = key
    · simp [hk] at h
    · simpa [hk] using h
  · by_cases hk : k = uid
    · simp [hk] at h
    · simpa [hk] using h

/-- C10: every invocation of the direct-registration workflow changes at most
the Account record at the created principal's identifier, the registry entry
at the normalized username and the profile at that identifier; every
invocation of the federated-completion workflow changes at most the Account
record at the query-string identifier, the registry entry at the normalized
username and the profile at that identifier; every other record in every
collection is unchanged, and neither workflow ever deletes a record. -/
theorem workflow_frame_property (s : Store) (idp : Except String Principal)
    (now now2 : Nat) (u e pw u2 : String)
    (uidParam emailParam photo : Option String) :
    (∀ k, (registerSubmit s idp now u e pw).store.users k ≠ s.users k →
      ∃ p, idp = .ok p ∧ k = p.uid) ∧
    (∀ k, (registerSubmit s idp now u e pw).store.usernames k ≠
      s.usernames k → k = normalize u) ∧
    (∀ k, (registerSubmit s idp now u e pw).store.portfolios k ≠
      s.portfolios k → ∃ p, idp = .ok p ∧ k = p.uid) ∧
    (∀ k, (registerSubmit s idp now u e pw).store.users k = none →
      s.users k = none) ∧
    (∀ k, (registerSubmit s idp now u e pw).store.usernames k = none →
      s.usernames k = none) ∧
    (∀ k, (registerSubmit s idp now u e pw).store.portfolios k = none →
      s.portfolios k = none) ∧
    (∀ k, (finishSubmit s now2 uidParam emailParam photo u2).store.users k ≠
      s.users k → uidParam = some k) ∧
    (∀ k, (finishSubmit s now2 uidParam emailParam photo u2).store.usernames
      k ≠ s.usernames k → k = normalize u2) ∧
    (∀ k, (finishSubmit s now2 uidParam emailParam photo u2).store.portfolios
      k ≠ s.portfolios k → uidParam = some k) ∧
    (∀ k, (finishSubmit s now2 uidParam emailParam photo u2).store.users k =
      none → s.users k = none) ∧
    (∀ k, (finishSubmit s now2 uidParam emailParam photo u2).store.usernames
      k = none → s.usernames k = none) ∧
    (∀ k, (finishSubmit s now2 uidParam emailParam photo u2).store.portfolios
      k = none → s.portfolios k = none) := by
  rcases registerSubmit_store_cases s idp now u e pw with hr | ⟨p, hidp, hr⟩ <;>
    rcases finishSubmit_store_cases s now2 uidParam emailParam photo u2 with
      hf | ⟨uid, em, huid, hem, hf⟩ <;>
    refine ⟨?_, ?_, ?_, ?_, ?_, ?_, ?_, ?_, ?_, ?_, ?_, ?_⟩ <;> intro k h <;>
    (try rw [hr] at h) <;> (try rw [hf] at h)
  all_goals
    first
    | exact absurd rfl h
    | exact h
    | (exact ⟨p, hidp,
        (written_store_frame s p.uid (normalize u)
          ⟨normalize u, p.email, now⟩ ⟨p.uid⟩ directPortfolioDoc).1 k h⟩)
    | (exact (written_store_frame s p.uid (normalize u)
        ⟨normalize u, p.email, now⟩ ⟨p.uid⟩ directPortfolioDoc).2.1 k h)
    | (exact ⟨p, hidp,
        (written_store_frame s p.uid (normalize u)
          ⟨normalize u, p.email, now⟩ ⟨p.uid⟩ directPortfolioDoc).2.2.1 k h⟩)
    | (exact (written_store_frame s p.uid (normalize u)
        ⟨normalize u, p.email, now⟩ ⟨p.uid⟩ directPortfolioDoc).2.2.2.1 k h)
    | (exact (written_store_frame s p.uid (normalize u)
        ⟨normalize u, p.email, now⟩ ⟨p.uid⟩
        directPortfolioDoc).2.2.2.2.1 k h)
    | (exact (written_store_frame s p.uid (normalize u)
        ⟨normalize u, p.email, now⟩ ⟨p.uid⟩
        directPortfolioDoc).2.2.2.2.2 k h)
    | (exact huid.trans (congrArg some
        ((written_store_frame s uid (normalize u2) ⟨normalize u2, em, now2⟩
          ⟨uid⟩ (federatedPortfolioDoc photo)).1 k h).symm))
    | (exact (written_store_frame s uid (normalize u2)
        ⟨normalize u2, em, now2⟩ ⟨uid⟩ (federatedPortfolioDoc photo)).2.1 k h)
    | (exact huid.trans (congrArg some
        ((written_store_frame s uid (normalize u2) ⟨normalize u2, em, now2⟩
          ⟨uid⟩ (federatedPortfolioDoc photo)).2.2.1 k h).symm))
    | (exact (written_store_frame s uid (normalize u2)
        ⟨normalize u2, em, now2⟩ ⟨uid⟩
        (federatedPortfolioDoc photo)).2.2.2.1 k h)
    | (exact (written_store_frame s uid (normalize u2)
        ⟨normalize u2, em, now2⟩ ⟨uid⟩
        (federatedPortfolioDoc photo)).2.2.2.2.1 k h)
    | (exact (written_store_frame s uid (normalize u2)
        ⟨normalize u2, em, now2⟩ ⟨uid⟩
        (federatedPortfolioDoc photo)).2.2.2.2.2 k h)

/-- Witness for C10: a successful registration from the empty store changes
the `users` collection at the created uid (and the frame theorem then places
that key at the principal's uid). -/
theorem workflow_frame_property_witness :
    ∃ p : Principal,
      (Except.ok ⟨"acct-1", "u@example.com", none⟩ :
        Except String Principal) = .ok p ∧ "acct-1" = p.uid :=
  (workflow_frame_property emptyStore (.ok ⟨"acct-1", "u@example.com", none⟩)
    5 6 "new_user_1" "u@example.com" "secret1" "other_user"
    (some "acct-2") (some "e@x.com") none).1 "acct-1" (by decide)

end PortHub
